import Mathlib

/-!
Shallow embedding of the outfit-recommendation core of the virtual-closet
repository (the outfit generator service module: filtering, candidate
generation, scoring, selection, and the wear-history analyzer).

Modelling conventions:
* JS numbers are modelled as rationals (`ℚ`); all arithmetic the core performs
  (sums, averages over at most five items, fixed-point constants, clamping)
  is exact at these magnitudes.
* JS `Set<number>` is modelled as `Finset ℕ` (only membership and insertion
  are used).
* Nullable references are `Option`.
* Record fields that no algorithm in the core ever reads (item names, image
  paths, creation timestamps, weather description strings) are omitted from
  the records.
* `Array.prototype.sort` with comparator `(a, b) => b.score - a.score` is a
  stable descending sort (ES2019 guarantees stability); it is modelled by a
  stable insertion sort producing the unique score-descending ordering that
  keeps tied elements in input order.
-/

inductive ClothingType where
  | top
  | bottom
  | shoes
  | outerwear
  | accessory
deriving DecidableEq

inductive FormalityLevel where
  | casual
  | business_casual
  | formal
deriving DecidableEq

inductive WeatherCondition where
  | clear
  | rain
  | snow
  | cloudy
deriving DecidableEq

structure ClothingItem where
  id : ℕ
  type : ClothingType
  color : String
  warmth_rating : ℚ
  formality_level : FormalityLevel
  tags : List String
deriving DecidableEq

structure WeatherData where
  temperature : ℚ
  condition : WeatherCondition
  feels_like : ℚ
  humidity : ℚ
deriving DecidableEq

structure OutfitCandidate where
  top : Option ClothingItem
  bottom : Option ClothingItem
  shoes : Option ClothingItem
  outerwear : Option ClothingItem
  accessory : Option ClothingItem
deriving DecidableEq

structure ScoreBreakdown where
  weatherScore : ℚ
  formalityScore : ℚ
  colorScore : ℚ
  freshnessScore : ℚ
  total : ℚ
deriving DecidableEq

structure ScoredOutfit where
  candidate : OutfitCandidate
  score : ℚ
  breakdown : ScoreBreakdown
deriving DecidableEq

structure RecentlyWornItems where
  lastTwoDays : Finset ℕ
  lastSevenDays : Finset ℕ

/-- JS `String.prototype.toLowerCase` for the ASCII data the core handles:
lower-case every character. -/
def strToLower (s : String) : String :=
  String.mk (s.data.map Char.toLower)

/-- Substring containment on character lists, the semantics of JS
`String.prototype.includes` (the empty pattern is contained in anything). -/
def charListIncludes (hay pat : List Char) : Bool :=
  hay.tails.any fun t => pat.isPrefixOf t

/-- JS `haystack.includes(needle)`. -/
def strIncludes (haystack needle : String) : Bool :=
  charListIncludes haystack.data needle.data

/-- The formality hierarchy used throughout the source:
casual = 0, business_casual = 1, formal = 2. -/
def formalityLevels : FormalityLevel → ℤ
  | .casual => 0
  | .business_casual => 1
  | .formal => 2

/-- T034: an item's formality is compatible with the preference when it
matches exactly or is within one level. -/
def isFormalityCompatible (itemFormality preferredFormality : FormalityLevel) : Bool :=
  if itemFormality = preferredFormality then
    true
  else
    let itemLevel := formalityLevels itemFormality
    let preferredLevel := formalityLevels preferredFormality
    decide (|itemLevel - preferredLevel| ≤ 1)

/-- The per-warmth ideal temperature bands; lookup in a record keyed by the
numbers 1..5, `none` for any other warmth value. -/
def tempRanges (warmth : ℚ) : Option (ℚ × ℚ) :=
  if warmth = 1 then some (75, 120)
  else if warmth = 2 then some (65, 85)
  else if warmth = 3 then some (50, 70)
  else if warmth = 4 then some (35, 55)
  else if warmth = 5 then some (-20, 50)
  else none

/-- T035: an item is weather appropriate when the temperature lies within
±10° of its warmth band; an unknown warmth rating is allowed unconditionally.
(The source's rain/snow branch returns the same temperature check, so the
condition does not affect the result.) -/
def isWeatherAppropriate (item : ClothingItem) (weather : WeatherData) : Bool :=
  let temp := weather.temperature
  match tempRanges item.warmth_rating with
  | none => true
  | some range =>
      let tolerance : ℚ := 10
      decide (range.1 - tolerance ≤ temp ∧ temp ≤ range.2 + tolerance)

inductive Season where
  | summer
  | spring
  | fall
  | winter
deriving DecidableEq

/-- T036: season filter; items without a season-like tag pass unconditionally,
tagged items must intersect the adjacency table for the derived season. -/
def isSeasonAppropriate (item : ClothingItem) (weather : WeatherData) : Bool :=
  let temp := weather.temperature
  let season : Season :=
    if temp ≥ 75 then .summer
    else if temp ≥ 60 then .spring
    else if temp ≥ 45 then .fall
    else .winter
  let itemTags := item.tags.map strToLower
  let hasSeasonTag := itemTags.any fun tag =>
    ["summer", "spring", "fall", "winter", "all-season", "year-round"].contains tag
  if !hasSeasonTag then
    true
  else
    let compatibleSeasons : List String :=
      match season with
      | .summer => ["summer", "spring", "all-season", "year-round"]
      | .spring => ["spring", "summer", "fall", "all-season", "year-round"]
      | .fall => ["fall", "spring", "winter", "all-season", "year-round"]
      | .winter => ["winter", "fall", "all-season", "year-round"]
    itemTags.any fun tag => compatibleSeasons.contains tag

/-- Context filter: all three predicates must pass. -/
def filterItemsByContext (items : List ClothingItem) (weather : WeatherData)
    (formalityPreference : FormalityLevel) : List ClothingItem :=
  items.filter fun item =>
    isFormalityCompatible item.formality_level formalityPreference &&
    isWeatherAppropriate item weather &&
    isSeasonAppropriate item weather

structure GroupedItems where
  top : List ClothingItem
  bottom : List ClothingItem
  shoes : List ClothingItem
  outerwear : List ClothingItem
  accessory : List ClothingItem

/-- Group items by type; the source pushes in traversal order, which is a
filter per category. -/
def groupItemsByType (items : List ClothingItem) : GroupedItems where
  top := items.filter fun item => item.type == ClothingType.top
  bottom := items.filter fun item => item.type == ClothingType.bottom
  shoes := items.filter fun item => item.type == ClothingType.shoes
  outerwear := items.filter fun item => item.type == ClothingType.outerwear
  accessory := items.filter fun item => item.type == ClothingType.accessory

/-- The loop body of the candidate generator for a fixed core outfit
(top, bottom, shoes): the outerwear/accessory variants in the source's push
order.  `requireOuterwear` is the cold-weather flag; `outerwears` and
`accessories` are the per-category lists with the `[null]` fallback already
applied.  Cold weather with real outerwear stock (`outerwears[0] !== null`)
forces one outerwear per candidate; otherwise the bare candidate comes
first, then the accessory variants, then the outerwear variants. -/
def candidateCombos (t b s : ClothingItem) (requireOuterwear : Bool)
    (outerwears accessories : List (Option ClothingItem)) : List OutfitCandidate :=
  if requireOuterwear && decide (outerwears.length > 0) &&
      decide (outerwears.head? ≠ some none) then
    outerwears.flatMap fun ow =>
      match ow with
      | none => []
      | some o =>
        { top := some t, bottom := some b, shoes := some s,
          outerwear := some o, accessory := none } ::
        accessories.flatMap fun ac =>
          match ac with
          | none => []
          | some a =>
            [{ top := some t, bottom := some b, shoes := some s,
               outerwear := some o, accessory := some a }]
  else
    ({ top := some t, bottom := some b, shoes := some s,
       outerwear := none, accessory := none } : OutfitCandidate) ::
    ((accessories.flatMap fun ac =>
      match ac with
      | none => []
      | some a =>
        [{ top := some t, bottom := some b, shoes := some s,
           outerwear := none, accessory := some a }]) ++
     outerwears.flatMap fun ow =>
       match ow with
       | none => []
       | some o =>
         { top := some t, bottom := some b, shoes := some s,
           outerwear := some o, accessory := none } ::
         accessories.flatMap fun ac =>
           match ac with
           | none => []
           | some a =>
             [{ top := some t, bottom := some b, shoes := some s,
                outerwear := some o, accessory := some a }])

/-- A category list with the source's `[null]` fallback for empty stock:
`grouped.X.length > 0 ? grouped.X : [null]`. -/
def optFallback (l : List ClothingItem) : List (Option ClothingItem) :=
  if l.length > 0 then l.map some else [none]

/-- T039: enumerate outfit candidates.  Each category list falls back to
`[none]` when empty; candidates missing a core item are skipped; the
per-core-outfit variants are `candidateCombos`. -/
def generateOutfitCandidates (items : List ClothingItem) (weather : WeatherData) :
    List OutfitCandidate :=
  let grouped := groupItemsByType items
  let requireOuterwear := decide (weather.temperature < 50)
  let tops := optFallback grouped.top
  let bottoms := optFallback grouped.bottom
  let shoesL := optFallback grouped.shoes
  let outerwears := optFallback grouped.outerwear
  let accessories := optFallback grouped.accessory
  tops.flatMap fun top =>
    bottoms.flatMap fun bottom =>
      shoesL.flatMap fun shoe =>
        match top, bottom, shoe with
        | some t, some b, some s =>
          candidateCombos t b s requireOuterwear outerwears accessories
        | _, _, _ => []

/-- The non-null items of a candidate, in slot order (the source rebuilds
this list inside each scorer). -/
def candidateItems (candidate : OutfitCandidate) : List ClothingItem :=
  [candidate.top, candidate.bottom, candidate.shoes,
   candidate.outerwear, candidate.accessory].filterMap id

/-- All item ids of a candidate, in slot order. -/
def getOutfitItemIds (candidate : OutfitCandidate) : List ℕ :=
  [candidate.top, candidate.bottom, candidate.shoes,
   candidate.outerwear, candidate.accessory].filterMap fun o => o.map (·.id)

/-- T035: weather sub-score (0-30). -/
def scoreWeatherMatch (candidate : OutfitCandidate) (weather : WeatherData) : ℚ :=
  let temp := weather.temperature
  let allItems := candidateItems candidate
  if allItems.length = 0 then 0
  else
    let totalWarmth := (allItems.map (·.warmth_rating)).sum
    let avgWarmth := totalWarmth / (allItems.length : ℚ)
    let idealWarmth : ℚ :=
      if temp ≥ 75 then 3/2
      else if temp ≥ 60 then 5/2
      else if temp ≥ 45 then 7/2
      else 9/2
    let warmthDiff := |avgWarmth - idealWarmth|
    let base := 30 - warmthDiff * 6
    let withOuterwearBonus :=
      if temp < 50 ∧ candidate.outerwear ≠ none then base + 5 else base
    let hasWaterproofTags := allItems.any fun item =>
      item.tags.any fun tag =>
        ["waterproof", "rain", "water-resistant"].contains (strToLower tag)
    let withRainBonus :=
      if (weather.condition = .rain ∨ weather.condition = .snow) ∧ hasWaterproofTags then
        withOuterwearBonus + 5
      else withOuterwearBonus
    max 0 (min 30 withRainBonus)

/-- JS `Math.max(...xs)` over a nonempty integer list (the source only
applies it to nonempty lists). -/
def listMaxZ : List ℤ → ℤ
  | [] => 0
  | x :: xs => xs.foldl max x

/-- JS `Math.min(...xs)` over a nonempty integer list. -/
def listMinZ : List ℤ → ℤ
  | [] => 0
  | x :: xs => xs.foldl min x

/-- T034: formality sub-score (0-25): per-item 25/15/0 averaged, minus a flat
5 penalty when the level spread exceeds 1. -/
def scoreFormalityMatch (candidate : OutfitCandidate) (preference : FormalityLevel) : ℚ :=
  let preferredLevel := formalityLevels preference
  let allItems := candidateItems candidate
  if allItems.length = 0 then 0
  else
    let totalScore : ℚ := (allItems.map fun item =>
      let levelDiff := |formalityLevels item.formality_level - preferredLevel|
      if levelDiff = 0 then (25 : ℚ)
      else if levelDiff = 1 then 15
      else 0).sum
    let avgScore := totalScore / (allItems.length : ℚ)
    let levels := allItems.map fun item => formalityLevels item.formality_level
    let formalityVariance := listMaxZ levels - listMinZ levels
    let consistencyPenalty : ℚ := if formalityVariance > 1 then 5 else 0
    max 0 (min 25 (avgScore - consistencyPenalty))

def neutrals : List String :=
  ["black", "white", "gray", "grey", "beige", "tan", "brown", "navy", "cream"]

def complementaryPairs : List (String × String) :=
  [("blue", "orange"), ("red", "green"), ("yellow", "purple"),
   ("pink", "green"), ("navy", "white"), ("black", "white")]

def clashingPairs : List (String × String) :=
  [("brown", "black"), ("navy", "black"), ("red", "pink")]

/-- T037: color sub-score (0-20). -/
def scoreColorCoordination (candidate : OutfitCandidate) : ℚ :=
  let outfitColors :=
    ([candidate.top, candidate.bottom, candidate.shoes,
      candidate.outerwear, candidate.accessory].filterMap fun o =>
        o.map (·.color)).map strToLower
  if outfitColors.length = 0 then 10
  else
    let neutralCount := (outfitColors.filter fun color =>
      neutrals.any fun neutral => strIncludes color neutral).length
    let base : ℚ := 10
    let withNeutralBonus :=
      if neutralCount = outfitColors.length then base + 8
      else if (neutralCount : ℤ) ≥ (outfitColors.length : ℤ) - 1 then base + 6
      else base
    let withComplementary := complementaryPairs.foldl (fun s p =>
      if (outfitColors.any fun c => strIncludes c p.1) &&
         (outfitColors.any fun c => strIncludes c p.2) then s + 4 else s)
      withNeutralBonus
    let withClashing := clashingPairs.foldl (fun s p =>
      if (outfitColors.any fun c => strIncludes c p.1) &&
         (outfitColors.any fun c => strIncludes c p.2) then s - 5 else s)
      withComplementary
    let nonNeutralCount := outfitColors.length - neutralCount
    let withBusyPenalty :=
      if nonNeutralCount > 2 then withClashing - 3 else withClashing
    max 0 (min 20 withBusyPenalty)

/-- T038: freshness sub-score (0-25): 0 as soon as any item was worn in the
last two days, otherwise tiered by the count of 3-7-day items. -/
def scoreFreshness (candidate : OutfitCandidate) (recentlyWorn : RecentlyWornItems) : ℚ :=
  let outfitItemIds := getOutfitItemIds candidate
  if outfitItemIds.any fun itemId => decide (itemId ∈ recentlyWorn.lastTwoDays) then 0
  else
    let itemsWornRecently :=
      (outfitItemIds.filter fun itemId => decide (itemId ∈ recentlyWorn.lastSevenDays)).length
    if itemsWornRecently = 0 then 25
    else if itemsWornRecently = 1 then 15
    else if itemsWornRecently = 2 then 8
    else 5

/-- Score a candidate: the four sub-scores plus their sum. -/
def scoreOutfit (candidate : OutfitCandidate) (weather : WeatherData)
    (formalityPreference : FormalityLevel) (recentlyWorn : RecentlyWornItems) :
    ScoredOutfit :=
  let weatherScore := scoreWeatherMatch candidate weather
  let formalityScore := scoreFormalityMatch candidate formalityPreference
  let colorScore := scoreColorCoordination candidate
  let freshnessScore := scoreFreshness candidate recentlyWorn
  let total := weatherScore + formalityScore + colorScore + freshnessScore
  { candidate := candidate
    score := total
    breakdown :=
      { weatherScore := weatherScore
        formalityScore := formalityScore
        colorScore := colorScore
        freshnessScore := freshnessScore
        total := total } }

structure OutfitWithItems where
  top_id : Option ℕ
  bottom_id : Option ℕ
  shoes_id : Option ℕ
  outerwear_id : Option ℕ
  accessory_id : Option ℕ
  top : Option ClothingItem
  bottom : Option ClothingItem
  shoes : Option ClothingItem
  outerwear : Option ClothingItem
  accessory : Option ClothingItem
deriving DecidableEq

structure OutfitSuggestion where
  outfit : OutfitWithItems
  score : ℚ
  reason : String
deriving DecidableEq

/-- Convert a candidate to the outfit record returned to callers (the
source also stamps `id := 0`, a null name and a wall-clock `created_at`
string; those presentation fields are read by no algorithm and are omitted
here). -/
def candidateToOutfitWithItems (candidate : OutfitCandidate) : OutfitWithItems where
  top_id := candidate.top.map (·.id)
  bottom_id := candidate.bottom.map (·.id)
  shoes_id := candidate.shoes.map (·.id)
  outerwear_id := candidate.outerwear.map (·.id)
  accessory_id := candidate.accessory.map (·.id)
  top := candidate.top
  bottom := candidate.bottom
  shoes := candidate.shoes
  outerwear := candidate.outerwear
  accessory := candidate.accessory

/-- Stable insert for a descending sort: `x` goes in front of the first
element strictly below it, hence after every element tied with it. -/
def insertByKeyDesc {α : Type} (key : α → ℚ) (x : α) : List α → List α
  | [] => [x]
  | y :: ys => if key y < key x then x :: y :: ys else y :: insertByKeyDesc key x ys

/-- Stable descending sort by a rational key: the semantics of
`xs.sort((a, b) => b.key - a.key)` (ES2019 sorts are stable). -/
def sortByKeyDesc {α : Type} (key : α → ℚ) (l : List α) : List α :=
  l.foldl (fun acc x => insertByKeyDesc key x acc) []

/-- First character upper-cased, as in
`s.charAt(0).toUpperCase() + s.slice(1)`. -/
def capitalizeFirst (s : String) : String :=
  match s.data with
  | [] => s
  | c :: cs => String.mk (c.toUpper :: cs)

/-- Build the human-readable reason string from the score breakdown: the
four factors are normalized to percentages, stably sorted descending, and the
triggered clauses are joined with commas. -/
def generateReason (scored : ScoredOutfit) (weather : WeatherData) : String :=
  let breakdown := scored.breakdown
  let factors : List (String × ℚ) :=
    [("weather", breakdown.weatherScore / 30 * 100),
     ("formality", breakdown.formalityScore / 25 * 100),
     ("freshness", breakdown.freshnessScore / 25 * 100),
     ("color", breakdown.colorScore / 20 * 100)]
  let sortedFactors := sortByKeyDesc (fun f => f.2) factors
  let weatherReasons : List String :=
    if sortedFactors.headI.1 = "weather" ∧ breakdown.weatherScore ≥ 25 then
      [if weather.temperature < 45 then "Perfect for cold weather"
       else if weather.temperature > 75 then "Ideal for warm weather"
       else "Great for today\x27s temperature"] ++
      (if weather.condition = .rain then ["good for rainy conditions"] else [])
    else []
  let formalityReasons : List String :=
    if breakdown.formalityScore ≥ 20 then ["matches your formality preference"] else []
  let freshnessReasons : List String :=
    if breakdown.freshnessScore = 25 then ["fresh combination - not worn recently"]
    else if breakdown.freshnessScore ≥ 15 then ["relatively fresh outfit"]
    else []
  let colorReasons : List String :=
    if breakdown.colorScore ≥ 18 then ["excellent color coordination"]
    else if breakdown.colorScore ≥ 15 then ["well-coordinated colors"]
    else []
  let reasons := weatherReasons ++ formalityReasons ++ freshnessReasons ++ colorReasons
  match reasons with
  | [] => "Good outfit for today"
  | [r] => capitalizeFirst r
  | r :: rs => capitalizeFirst r ++ ", " ++ String.intercalate ", " rs

/-- Package an accepted scored outfit as a returned suggestion. -/
def mkSuggestion (scoredOutfit : ScoredOutfit) (weather : WeatherData) : OutfitSuggestion :=
  { outfit := candidateToOutfitWithItems scoredOutfit.candidate
    score := scoredOutfit.score
    reason := generateReason scoredOutfit weather }

/-- JS strict equality between an outfit record id (`number | null`) and a
candidate lookup (`number | undefined`): `null === undefined` is false, so
two absent slots do NOT compare equal. -/
def jsEqOptNat (a b : Option ℕ) : Bool :=
  match a, b with
  | some x, some y => x == y
  | _, _ => false

/-- The backfill duplicate test: the source compares only the top, bottom
and shoes id slots of an existing suggestion against the candidate. -/
def suggestionMatchesCandidate (s : OutfitSuggestion) (c : OutfitCandidate) : Bool :=
  jsEqOptNat s.outfit.top_id (c.top.map (·.id)) &&
  jsEqOptNat s.outfit.bottom_id (c.bottom.map (·.id)) &&
  jsEqOptNat s.outfit.shoes_id (c.shoes.map (·.id))

/-- Diversity pass: scan the pool in order, stop at `count`, accept only
candidates sharing no item id with previously accepted ones. -/
def diversityPass (count : ℕ) (weather : WeatherData) :
    List ScoredOutfit → List OutfitSuggestion → Finset ℕ →
    List OutfitSuggestion × Finset ℕ
  | [], suggestions, usedItemIds => (suggestions, usedItemIds)
  | scoredOutfit :: rest, suggestions, usedItemIds =>
    if count ≤ suggestions.length then (suggestions, usedItemIds)
    else
      let candidateItemIds := getOutfitItemIds scoredOutfit.candidate
      let hasConflict := candidateItemIds.any fun i => decide (i ∈ usedItemIds)
      if hasConflict then
        diversityPass count weather rest suggestions usedItemIds
      else
        diversityPass count weather rest
          (suggestions ++ [mkSuggestion scoredOutfit weather])
          (candidateItemIds.foldl (fun s i => insert i s) usedItemIds)

/-- Backfill pass: scan the pool again in order, stop at `count`, accept any
candidate whose (top, bottom, shoes) id slots do not match an existing
suggestion. -/
def backfillPass (count : ℕ) (weather : WeatherData) :
    List ScoredOutfit → List OutfitSuggestion → List OutfitSuggestion
  | [], suggestions => suggestions
  | scoredOutfit :: rest, suggestions =>
    if count ≤ suggestions.length then suggestions
    else
      let alreadyAdded := suggestions.any fun s =>
        suggestionMatchesCandidate s scoredOutfit.candidate
      if alreadyAdded then
        backfillPass count weather rest suggestions
      else
        backfillPass count weather rest (suggestions ++ [mkSuggestion scoredOutfit weather])

/-- T040: drop zero-score outfits, stable-sort descending by score, keep the
top `min 20` as the pool, run the diversity pass and, when it fell short and
the pool has more entries, the backfill pass. -/
def selectTopSuggestions (scoredOutfits : List ScoredOutfit) (count : ℕ)
    (weather : WeatherData) : List OutfitSuggestion :=
  let validOutfits := scoredOutfits.filter fun outfit => decide (0 < outfit.score)
  if validOutfits.length = 0 then []
  else
    let sorted := sortByKeyDesc (fun so => so.score) validOutfits
    let topCandidates := sorted.take (min 20 sorted.length)
    let diversityResult := diversityPass count weather topCandidates [] ∅
    let suggestions := diversityResult.1
    if suggestions.length < count ∧ suggestions.length < topCandidates.length then
      backfillPass count weather topCandidates suggestions
    else suggestions

/-- The scored candidate pool of one pipeline run (steps 3-5 of the source's
entry point, after the item list, wear history and weather have been
fetched). -/
def scoredCandidatePool (allItems : List ClothingItem) (recentlyWorn : RecentlyWornItems)
    (weather : WeatherData) (formalityPreference : FormalityLevel) : List ScoredOutfit :=
  let filteredItems := filterItemsByContext allItems weather formalityPreference
  let candidates := generateOutfitCandidates filteredItems weather
  candidates.map fun candidate =>
    scoreOutfit candidate weather formalityPreference recentlyWorn

/-- The pipeline entry point (`generateOutfitSuggestions`), with the three
external reads (wardrobe snapshot, wear history, weather) supplied as
arguments; the suggestion count is hard-coded to 3 in the source. -/
def generateOutfitSuggestionsCore (allItems : List ClothingItem)
    (recentlyWorn : RecentlyWornItems) (weather : WeatherData)
    (formalityPreference : FormalityLevel) : List OutfitSuggestion :=
  if allItems.length = 0 then []
  else
    selectTopSuggestions (scoredCandidatePool allItems recentlyWorn weather formalityPreference)
      3 weather

/-- A wear-history log row joined with its outfit's five id columns.  Dates
are modelled as integers carrying the order of JS `Date` comparison. -/
structure OutfitLogJoined where
  worn_date : ℤ
  top_id : Option ℕ
  bottom_id : Option ℕ
  shoes_id : Option ℕ
  outerwear_id : Option ℕ
  accessory_id : Option ℕ

/-- The non-null item ids of a logged outfit. -/
def logItemIds (log : OutfitLogJoined) : List ℕ :=
  [log.top_id, log.bottom_id, log.shoes_id,
   log.outerwear_id, log.accessory_id].filterMap id

/-- The wear-history analyzer (`fetchRecentlyWornItems`) after the database
query: every log (the query already restricts to the last seven days) adds
its item ids to `lastTwoDays` when `wornDate >= twoDaysAgo` and to
`lastSevenDays` otherwise. -/
def classifyWornLog (twoDaysAgo : ℤ) (acc : RecentlyWornItems)
    (log : OutfitLogJoined) : RecentlyWornItems :=
  let itemIds := logItemIds log
  if twoDaysAgo ≤ log.worn_date then
    { acc with lastTwoDays := itemIds.foldl (fun s i => insert i s) acc.lastTwoDays }
  else
    { acc with lastSevenDays := itemIds.foldl (fun s i => insert i s) acc.lastSevenDays }

def fetchRecentlyWornItemsCore (twoDaysAgo : ℤ) (logs : List OutfitLogJoined) :
    RecentlyWornItems :=
  logs.foldl (classifyWornLog twoDaysAgo) { lastTwoDays := ∅, lastSevenDays := ∅ }

/-! ### Sub-score bounds -/

lemma scoreWeatherMatch_bounds (candidate : OutfitCandidate) (weather : WeatherData) :
    0 ≤ scoreWeatherMatch candidate weather ∧ scoreWeatherMatch candidate weather ≤ 30 := by
  unfold scoreWeatherMatch
  dsimp only
  split
  · norm_num
  · exact ⟨le_max_left _ _, max_le (by norm_num) (min_le_left _ _)⟩

lemma scoreFormalityMatch_bounds (candidate : OutfitCandidate) (preference : FormalityLevel) :
    0 ≤ scoreFormalityMatch candidate preference ∧ scoreFormalityMatch candidate preference ≤ 25 := by
  unfold scoreFormalityMatch
  dsimp only
  split
  · norm_num
  · exact ⟨le_max_left _ _, max_le (by norm_num) (min_le_left _ _)⟩

lemma scoreColorCoordination_bounds (candidate : OutfitCandidate) :
    0 ≤ scoreColorCoordination candidate ∧ scoreColorCoordination candidate ≤ 20 := by
  unfold scoreColorCoordination
  dsimp only
  split
  · norm_num
  · exact ⟨le_max_left _ _, max_le (by norm_num) (min_le_left _ _)⟩

lemma scoreFreshness_bounds (candidate : OutfitCandidate) (recentlyWorn : RecentlyWornItems) :
    0 ≤ scoreFreshness candidate recentlyWorn ∧ scoreFreshness candidate recentlyWorn ≤ 25 := by
  unfold scoreFreshness
  dsimp only
  split
  · norm_num
  · split
    · norm_num
    · split
      · norm_num
      · split <;> norm_num

/-- **C5** (confirmed).  For every candidate, weather, formality preference
and recently-worn sets, the scorer produces a weather sub-score in [0,30], a
formality sub-score in [0,25], a color sub-score in [0,20], a freshness
sub-score in [0,25], and a total that is the exact sum of the four
sub-scores, hence lies in [0,100]. -/
theorem scoreOutfit_breakdown_bounds (candidate : OutfitCandidate) (weather : WeatherData)
    (formalityPreference : FormalityLevel) (recentlyWorn : RecentlyWornItems) :
    (0 ≤ (scoreOutfit candidate weather formalityPreference recentlyWorn).breakdown.weatherScore ∧
      (scoreOutfit candidate weather formalityPreference recentlyWorn).breakdown.weatherScore ≤ 30) ∧
    (0 ≤ (scoreOutfit candidate weather formalityPreference recentlyWorn).breakdown.formalityScore ∧
      (scoreOutfit candidate weather formalityPreference recentlyWorn).breakdown.formalityScore ≤ 25) ∧
    (0 ≤ (scoreOutfit candidate weather formalityPreference recentlyWorn).breakdown.colorScore ∧
      (scoreOutfit candidate weather formalityPreference recentlyWorn).breakdown.colorScore ≤ 20) ∧
    (0 ≤ (scoreOutfit candidate weather formalityPreference recentlyWorn).breakdown.freshnessScore ∧
      (scoreOutfit candidate weather formalityPreference recentlyWorn).breakdown.freshnessScore ≤ 25) ∧
    (scoreOutfit candidate weather formalityPreference recentlyWorn).breakdown.total =
      (scoreOutfit candidate weather formalityPreference recentlyWorn).breakdown.weatherScore +
      (scoreOutfit candidate weather formalityPreference recentlyWorn).breakdown.formalityScore +
      (scoreOutfit candidate weather formalityPreference recentlyWorn).breakdown.colorScore +
      (scoreOutfit candidate weather formalityPreference recentlyWorn).breakdown.freshnessScore ∧
    (0 ≤ (scoreOutfit candidate weather formalityPreference recentlyWorn).breakdown.total ∧
      (scoreOutfit candidate weather formalityPreference recentlyWorn).breakdown.total ≤ 100) := by
  obtain ⟨hw0, hw1⟩ := scoreWeatherMatch_bounds candidate weather
  obtain ⟨hf0, hf1⟩ := scoreFormalityMatch_bounds candidate formalityPreference
  obtain ⟨hc0, hc1⟩ := scoreColorCoordination_bounds candidate
  obtain ⟨hr0, hr1⟩ := scoreFreshness_bounds candidate recentlyWorn
  refine ⟨⟨hw0, hw1⟩, ⟨hf0, hf1⟩, ⟨hc0, hc1⟩, ⟨hr0, hr1⟩, rfl, ?_, ?_⟩
  · simpa [scoreOutfit] using by positivity
  · simp only [scoreOutfit]
    linarith

/-- **C10** (confirmed).  For every candidate and every pair of
recently-worn sets — including overlapping ones — membership of any
candidate item id in the worn-within-2-days set forces the freshness
sub-score to 0, and the 25/15/8/5 penalty tiers keyed to the count of
3-to-7-day items apply exactly when no candidate item is in the 2-day
set. -/
theorem scoreFreshness_spec (candidate : OutfitCandidate) (recentlyWorn : RecentlyWornItems) :
    ((∃ i ∈ getOutfitItemIds candidate, i ∈ recentlyWorn.lastTwoDays) →
      scoreFreshness candidate recentlyWorn = 0) ∧
    ((∀ i ∈ getOutfitItemIds candidate, i ∉ recentlyWorn.lastTwoDays) →
      scoreFreshness candidate recentlyWorn =
        (if (getOutfitItemIds candidate).countP
              (fun i => decide (i ∈ recentlyWorn.lastSevenDays)) = 0 then 25
         else if (getOutfitItemIds candidate).countP
              (fun i => decide (i ∈ recentlyWorn.lastSevenDays)) = 1 then 15
         else if (getOutfitItemIds candidate).countP
              (fun i => decide (i ∈ recentlyWorn.lastSevenDays)) = 2 then 8
         else 5)) := by
  constructor
  · rintro ⟨i, hi, hmem⟩
    unfold scoreFreshness
    dsimp only
    rw [if_pos]
    exact List.any_eq_true.mpr ⟨i, hi, by simpa using hmem⟩
  · intro h
    have hcond : ¬ ((getOutfitItemIds candidate).any
        (fun itemId => decide (itemId ∈ recentlyWorn.lastTwoDays)) = true) := by
      simp only [List.any_eq_true, decide_eq_true_eq, not_exists]
      intro i
      rintro ⟨hi, hmem⟩
      exact h i hi hmem
    unfold scoreFreshness
    dsimp only
    rw [if_neg hcond, List.countP_eq_length_filter]

def witC : OutfitCandidate :=
  { top := some { id := 1, type := .top, color := "navy", warmth_rating := 2,
                  formality_level := .casual, tags := [] },
    bottom := some { id := 2, type := .bottom, color := "navy", warmth_rating := 2,
                     formality_level := .casual, tags := [] },
    shoes := some { id := 3, type := .shoes, color := "navy", warmth_rating := 2,
                    formality_level := .casual, tags := [] },
    outerwear := none, accessory := none }

theorem scoreFreshness_spec_witness :
    scoreFreshness witC { lastTwoDays := {1}, lastSevenDays := {1} } = 0 ∧
    scoreFreshness witC { lastTwoDays := {9}, lastSevenDays := {2, 3} } = 8 := by
  constructor
  · exact (scoreFreshness_spec witC _).1 ⟨1, by decide, by decide⟩
  · have h := (scoreFreshness_spec witC { lastTwoDays := {9}, lastSevenDays := {2, 3} }).2
      (by decide)
    rw [h]
    decide

lemma mem_optFallback {l : List ClothingItem} {x : ClothingItem} :
    some x ∈ optFallback l ↔ x ∈ l := by
  unfold optFallback
  split
  · simp
  · rename_i h
    have hl : l = [] := by
      simpa using List.length_eq_zero.mp (by omega)
    subst hl
    simp

lemma candidateCombos_core_slots {t b s : ClothingItem} {r : Bool}
    {o a : List (Option ClothingItem)} :
    ∀ c ∈ candidateCombos t b s r o a,
      c.top = some t ∧ c.bottom = some b ∧ c.shoes = some s := by
  intro c hc
  unfold candidateCombos at hc
  split at hc
  · simp only [List.mem_flatMap] at hc
    obtain ⟨ow, _, hc⟩ := hc
    match ow with
    | none => simp at hc
    | some o' =>
      simp only [List.mem_cons, List.mem_flatMap] at hc
      rcases hc with rfl | ⟨ac, _, hc⟩
      · exact ⟨rfl, rfl, rfl⟩
      · match ac with
        | none => simp at hc
        | some a' =>
          simp only [List.mem_singleton] at hc
          subst hc
          exact ⟨rfl, rfl, rfl⟩
  · simp only [List.mem_cons, List.mem_append, List.mem_flatMap] at hc
    rcases hc with rfl | ⟨ac, _, hc⟩ | ⟨ow, _, hc⟩
    · exact ⟨rfl, rfl, rfl⟩
    · match ac with
      | none => simp at hc
      | some a' =>
        simp only [List.mem_singleton] at hc
        subst hc
        exact ⟨rfl, rfl, rfl⟩
    · match ow with
      | none => simp at hc
      | some o' =>
        simp only [List.mem_cons, List.mem_flatMap] at hc
        rcases hc with rfl | ⟨ac, _, hc⟩
        · exact ⟨rfl, rfl, rfl⟩
        · match ac with
          | none => simp at hc
          | some a' =>
            simp only [List.mem_singleton] at hc
            subst hc
            exact ⟨rfl, rfl, rfl⟩

lemma candidateCombos_outerwear {t b s : ClothingItem} {r : Bool}
    {o a : List (Option ClothingItem)}
    (h : (r && decide (o.length > 0) && decide (o.head? ≠ some none)) = true) :
    ∀ c ∈ candidateCombos t b s r o a, c.outerwear.isSome := by
  intro c hc
  unfold candidateCombos at hc
  rw [if_pos h] at hc
  simp only [List.mem_flatMap] at hc
  obtain ⟨ow, _, hc⟩ := hc
  match ow with
  | none => simp at hc
  | some o' =>
    simp only [List.mem_cons, List.mem_flatMap] at hc
    rcases hc with rfl | ⟨ac, _, hc⟩
    · rfl
    · match ac with
      | none => simp at hc
      | some a' =>
        simp only [List.mem_singleton] at hc
        subst hc
        rfl

lemma mem_generateOutfitCandidates {items : List ClothingItem} {weather : WeatherData}
    {c : OutfitCandidate} :
    c ∈ generateOutfitCandidates items weather ↔
      ∃ t ∈ (groupItemsByType items).top, ∃ b ∈ (groupItemsByType items).bottom,
        ∃ s ∈ (groupItemsByType items).shoes,
          c ∈ candidateCombos t b s (decide (weather.temperature < 50))
              (optFallback (groupItemsByType items).outerwear)
              (optFallback (groupItemsByType items).accessory) := by
  unfold generateOutfitCandidates
  simp only [List.mem_flatMap]
  constructor
  · rintro ⟨top, htop, bottom, hbot, shoe, hshoe, hc⟩
    match top, bottom, shoe with
    | none, _, _ => simp at hc
    | some t, none, _ => simp at hc
    | some t, some b, none => simp at hc
    | some t, some b, some s =>
      exact ⟨t, mem_optFallback.mp htop, b, mem_optFallback.mp hbot,
        s, mem_optFallback.mp hshoe, hc⟩
  · rintro ⟨t, ht, b, hb, s, hs, hc⟩
    exact ⟨some t, mem_optFallback.mpr ht, some b, mem_optFallback.mpr hb,
      some s, mem_optFallback.mpr hs, hc⟩

/-- **C4** (confirmed).  Every candidate emitted by the generator has
non-null top, bottom and shoes; and when the temperature is below 50 and at
least one outerwear item survived filtering, every emitted candidate has
non-null outerwear. -/
theorem generateOutfitCandidates_slots (items : List ClothingItem) (weather : WeatherData) :
    (∀ c ∈ generateOutfitCandidates items weather,
      c.top.isSome ∧ c.bottom.isSome ∧ c.shoes.isSome) ∧
    (weather.temperature < 50 →
      (∃ i ∈ items, i.type = ClothingType.outerwear) →
      ∀ c ∈ generateOutfitCandidates items weather, c.outerwear.isSome) := by
  constructor
  · intro c hc
    obtain ⟨t, _, b, _, s, _, hc⟩ := mem_generateOutfitCandidates.mp hc
    obtain ⟨h1, h2, h3⟩ := candidateCombos_core_slots c hc
    exact ⟨by simp [h1], by simp [h2], by simp [h3]⟩
  · intro htemp hex c hc
    obtain ⟨i, hi, hty⟩ := hex
    have hgrp : (groupItemsByType items).outerwear ≠ [] := by
      unfold groupItemsByType
      dsimp only
      intro hnil
      have hmem : i ∈ items.filter fun item => item.type == ClothingType.outerwear :=
        List.mem_filter.mpr ⟨hi, by simp [hty]⟩
      rw [hnil] at hmem
      simp at hmem
    obtain ⟨x, xs, hx⟩ := List.exists_cons_of_ne_nil hgrp
    obtain ⟨t, _, b, _, s, _, hc⟩ := mem_generateOutfitCandidates.mp hc
    refine candidateCombos_outerwear ?_ c hc
    rw [hx]
    unfold optFallback
    simp [htemp]

def witOuterItem : ClothingItem :=
  { id := 6, type := .outerwear, color := "black", warmth_rating := 5,
    formality_level := .casual, tags := [] }

def witColdItems : List ClothingItem :=
  [{ id := 1, type := .top, color := "navy", warmth_rating := 4,
     formality_level := .casual, tags := [] },
   { id := 2, type := .bottom, color := "navy", warmth_rating := 4,
     formality_level := .casual, tags := [] },
   { id := 3, type := .shoes, color := "navy", warmth_rating := 4,
     formality_level := .casual, tags := [] },
   witOuterItem]

def witColdWeather : WeatherData :=
  { temperature := 30, condition := .clear, feels_like := 30, humidity := 50 }

theorem generateOutfitCandidates_slots_witness :
    ((generateOutfitCandidates witColdItems witColdWeather).all fun c =>
      c.top.isSome && c.bottom.isSome && c.shoes.isSome && c.outerwear.isSome) = true := by
  have h := generateOutfitCandidates_slots witColdItems witColdWeather
  rw [List.all_eq_true]
  intro c hc
  have h1 := h.1 c hc
  have h2 := h.2 (by decide) ⟨witOuterItem, by decide, rfl⟩ c hc
  simp [h1.1, h1.2.1, h1.2.2, h2]

lemma mem_foldl_insert {l : List ℕ} {s0 : Finset ℕ} {i : ℕ} :
    i ∈ l.foldl (fun s j => insert j s) s0 ↔ i ∈ s0 ∨ i ∈ l := by
  induction l generalizing s0 with
  | nil => simp
  | cons x xs ih =>
    simp only [List.foldl_cons, ih, Finset.mem_insert, List.mem_cons]
    tauto

lemma mem_foldl_classify (twoDaysAgo : ℤ) (logs : List OutfitLogJoined)
    (acc : RecentlyWornItems) (i : ℕ) :
    (i ∈ (logs.foldl (classifyWornLog twoDaysAgo) acc).lastTwoDays ↔
      i ∈ acc.lastTwoDays ∨
        ∃ log ∈ logs, twoDaysAgo ≤ log.worn_date ∧ i ∈ logItemIds log) ∧
    (i ∈ (logs.foldl (classifyWornLog twoDaysAgo) acc).lastSevenDays ↔
      i ∈ acc.lastSevenDays ∨
        ∃ log ∈ logs, log.worn_date < twoDaysAgo ∧ i ∈ logItemIds log) := by
  induction logs generalizing acc with
  | nil => simp
  | cons lg rest ih =>
    simp only [List.foldl_cons]
    rcases le_or_lt twoDaysAgo lg.worn_date with hle | hlt
    · have hstep : classifyWornLog twoDaysAgo acc lg =
        { acc with lastTwoDays := (logItemIds lg).foldl (fun s j => insert j s) acc.lastTwoDays } := by
        unfold classifyWornLog
        rw [if_pos hle]
      rw [hstep]
      obtain ⟨ih1, ih2⟩ := ih _
      constructor
      · rw [ih1]
        simp only [mem_foldl_insert, List.mem_cons]
        constructor
        · rintro ((h | h) | ⟨lg2, h2, h3, h4⟩)
          · exact Or.inl h
          · exact Or.inr ⟨lg, Or.inl rfl, hle, h⟩
          · exact Or.inr ⟨lg2, Or.inr h2, h3, h4⟩
        · rintro (h | ⟨lg2, (rfl | h2), h3, h4⟩)
          · exact Or.inl (Or.inl h)
          · exact Or.inl (Or.inr h4)
          · exact Or.inr ⟨lg2, h2, h3, h4⟩
      · rw [ih2]
        simp only [List.mem_cons]
        constructor
        · rintro (h | ⟨lg2, h2, h3, h4⟩)
          · exact Or.inl h
          · exact Or.inr ⟨lg2, Or.inr h2, h3, h4⟩
        · rintro (h | ⟨lg2, (rfl | h2), h3, h4⟩)
          · exact Or.inl h
          · exact absurd h3 (not_lt.mpr hle)
          · exact Or.inr ⟨lg2, h2, h3, h4⟩
    · have hstep : classifyWornLog twoDaysAgo acc lg =
        { acc with lastSevenDays := (logItemIds lg).foldl (fun s j => insert j s) acc.lastSevenDays } := by
        unfold classifyWornLog
        rw [if_neg (not_le.mpr hlt)]
      rw [hstep]
      obtain ⟨ih1, ih2⟩ := ih _
      constructor
      · rw [ih1]
        simp only [List.mem_cons]
        constructor
        · rintro (h | ⟨lg2, h2, h3, h4⟩)
          · exact Or.inl h
          · exact Or.inr ⟨lg2, Or.inr h2, h3, h4⟩
        · rintro (h | ⟨lg2, (rfl | h2), h3, h4⟩)
          · exact Or.inl h
          · exact absurd h3 (not_le.mpr hlt)
          · exact Or.inr ⟨lg2, h2, h3, h4⟩
      · rw [ih2]
        simp only [mem_foldl_insert, List.mem_cons]
        constructor
        · rintro ((h | h) | ⟨lg2, h2, h3, h4⟩)
          · exact Or.inl h
          · exact Or.inr ⟨lg, Or.inl rfl, hlt, h⟩
          · exact Or.inr ⟨lg2, Or.inr h2, h3, h4⟩
        · rintro (h | ⟨lg2, (rfl | h2), h3, h4⟩)
          · exact Or.inl (Or.inl h)
          · exact Or.inl (Or.inr h4)
          · exact Or.inr ⟨lg2, h2, h3, h4⟩

def overlapLogs : List OutfitLogJoined :=
  [{ worn_date := -1, top_id := some 1, bottom_id := none, shoes_id := none,
     outerwear_id := none, accessory_id := none },
   { worn_date := -5, top_id := some 1, bottom_id := none, shoes_id := none,
     outerwear_id := none, accessory_id := none }]

/-- **C7 counterexample**: item 1, worn both yesterday and five days ago,
lands in the excluded set and in the penalized set of the same analysis
run, so the two sets are not disjoint. -/
theorem fetchRecentlyWorn_not_disjoint :
    ¬ Disjoint (fetchRecentlyWornItemsCore (-2) overlapLogs).lastTwoDays
        (fetchRecentlyWornItemsCore (-2) overlapLogs).lastSevenDays := by
  rw [Finset.not_disjoint_iff]
  exact ⟨1, by decide, by decide⟩

/-- **C7 amended**.  The excluded (worn within 2 days) and penalized (worn
3-7 days ago) sets produced by the wear-history analyzer are disjoint
provided no item id occurs both in a log dated on or after the 2-day
threshold and in a log dated before it; each log adds its ids to the bucket
of its own date, so an id worn in both windows would land in both sets. -/
theorem fetchRecentlyWorn_disjoint_of_separated (twoDaysAgo : ℤ)
    (logs : List OutfitLogJoined)
    (hsep : ∀ l1 ∈ logs, ∀ l2 ∈ logs, twoDaysAgo ≤ l1.worn_date →
      l2.worn_date < twoDaysAgo → ∀ i ∈ logItemIds l1, i ∉ logItemIds l2) :
    Disjoint (fetchRecentlyWornItemsCore twoDaysAgo logs).lastTwoDays
      (fetchRecentlyWornItemsCore twoDaysAgo logs).lastSevenDays := by
  rw [Finset.disjoint_left]
  intro i h2 h7
  unfold fetchRecentlyWornItemsCore at h2 h7
  obtain ⟨c1, c2⟩ := mem_foldl_classify twoDaysAgo logs { lastTwoDays := ∅, lastSevenDays := ∅ } i
  rcases c1.mp h2 with h | ⟨l1, hl1, hd1, hi1⟩
  · simp at h
  rcases c2.mp h7 with h | ⟨l2, hl2, hd2, hi2⟩
  · simp at h
  exact hsep l1 hl1 l2 hl2 hd1 hd2 i hi1 hi2

def separatedLogs : List OutfitLogJoined :=
  [{ worn_date := -1, top_id := some 1, bottom_id := some 2, shoes_id := none,
     outerwear_id := none, accessory_id := none },
   { worn_date := -5, top_id := some 3, bottom_id := none, shoes_id := none,
     outerwear_id := none, accessory_id := none }]

theorem fetchRecentlyWorn_disjoint_witness :
    Disjoint (fetchRecentlyWornItemsCore (-2) separatedLogs).lastTwoDays
      (fetchRecentlyWornItemsCore (-2) separatedLogs).lastSevenDays :=
  fetchRecentlyWorn_disjoint_of_separated (-2) separatedLogs (by decide)

/-! ### Shared concrete inputs -/

def demoTop : ClothingItem :=
  { id := 1, type := .top, color := "navy", warmth_rating := 2,
    formality_level := .casual, tags := [] }

def demoBottom : ClothingItem :=
  { id := 2, type := .bottom, color := "navy", warmth_rating := 2,
    formality_level := .casual, tags := [] }

def demoShoes : ClothingItem :=
  { id := 3, type := .shoes, color := "navy", warmth_rating := 2,
    formality_level := .casual, tags := [] }

def demoItems : List ClothingItem := [demoTop, demoBottom, demoShoes]

def clear68 : WeatherData :=
  { temperature := 68, condition := .clear, feels_like := 68, humidity := 50 }

def clear30 : WeatherData :=
  { temperature := 30, condition := .clear, feels_like := 30, humidity := 50 }

def emptyWorn : RecentlyWornItems := { lastTwoDays := ∅, lastSevenDays := ∅ }

def staleWorn : RecentlyWornItems := { lastTwoDays := {1}, lastSevenDays := ∅ }

/-- **C9 counterexample**: an item with warmth rating 7 (outside [1,5])
passes the whole context filter unchanged; no error is signaled anywhere in
the filtering stage. -/
theorem outOfRangeWarmth_passes_filter :
    filterItemsByContext
      [{ id := 1, type := .top, color := "navy", warmth_rating := 7,
         formality_level := .casual, tags := [] }] clear68 .casual =
      [{ id := 1, type := .top, color := "navy", warmth_rating := 7,
         formality_level := .casual, tags := [] }] :=
  of_decide_eq_true (by with_unfolding_all rfl)

/-- **C9 amended**: an item whose warmth rating lies outside [1,5] is
silently accepted by the weather-appropriateness check — the temperature
band lookup misses and the item is allowed unconditionally, matching the
source comment "Unknown warmth rating, allow it". -/
theorem isWeatherAppropriate_out_of_range (item : ClothingItem) (weather : WeatherData)
    (h : item.warmth_rating < 1 ∨ 5 < item.warmth_rating) :
    isWeatherAppropriate item weather = true := by
  have h1 : item.warmth_rating ≠ 1 := by rcases h with h | h <;> intro he <;> rw [he] at h <;> norm_num at h
  have h2 : item.warmth_rating ≠ 2 := by rcases h with h | h <;> intro he <;> rw [he] at h <;> norm_num at h
  have h3 : item.warmth_rating ≠ 3 := by rcases h with h | h <;> intro he <;> rw [he] at h <;> norm_num at h
  have h4 : item.warmth_rating ≠ 4 := by rcases h with h | h <;> intro he <;> rw [he] at h <;> norm_num at h
  have h5 : item.warmth_rating ≠ 5 := by rcases h with h | h <;> intro he <;> rw [he] at h <;> norm_num at h
  unfold isWeatherAppropriate tempRanges
  simp [h1, h2, h3, h4, h5]

theorem isWeatherAppropriate_out_of_range_witness :
    isWeatherAppropriate
      { id := 1, type := .top, color := "navy", warmth_rating := 7,
        formality_level := .casual, tags := [] } clear30 = true :=
  isWeatherAppropriate_out_of_range _ clear30 (Or.inr (by norm_num))

/-- **C8** (confirmed): the embedded pipeline is a pure function of the item
list, the recently-worn sets, the weather snapshot and the formality
preference, so two runs on identical inputs produce the identical scored
candidate pool and the identical ordered suggestion list. -/
theorem pipeline_deterministic (allItems : List ClothingItem)
    (recentlyWorn : RecentlyWornItems) (weather : WeatherData)
    (formalityPreference : FormalityLevel) :
    scoredCandidatePool allItems recentlyWorn weather formalityPreference =
      scoredCandidatePool allItems recentlyWorn weather formalityPreference ∧
    generateOutfitSuggestionsCore allItems recentlyWorn weather formalityPreference =
      generateOutfitSuggestionsCore allItems recentlyWorn weather formalityPreference :=
  ⟨rfl, rfl⟩

/-- **C1 code bug**: the single-outfit wardrobe whose top (id 1) was worn
yesterday still yields one returned suggestion, with total 70 (= 27 + 25 +
18 + 0), because only the freshness sub-score is zeroed while the selector
discards only total-zero candidates. -/
theorem excluded_item_still_suggested :
    (generateOutfitSuggestionsCore demoItems staleWorn clear68 .casual).map
        (fun s => (s.score, s.outfit.top_id)) = [(70, some 1)] ∧
    1 ∈ staleWorn.lastTwoDays := by
  constructor
  · exact of_decide_eq_true (by with_unfolding_all rfl)
  · decide

/-- **C2 counterexample**: at 30°F the one-top/one-bottom/one-shoes
warmth-2 wardrobe of Scenario B yields zero suggestions, not the one
suggestion the claim promises. -/
theorem scenarioB_not_one_suggestion :
    (generateOutfitSuggestionsCore demoItems emptyWorn clear30 .casual).length ≠ 1 := by
  have h : generateOutfitSuggestionsCore demoItems emptyWorn clear30 .casual = [] :=
    of_decide_eq_true (by with_unfolding_all rfl)
  rw [h]
  decide

/-- **C2 amended**: every warmth-2 item fails the weather filter at 30°F
(band [65,85] with ±10 tolerance), so the pipeline returns no suggestions at
all. -/
theorem scenarioB_returns_empty (items : List ClothingItem) (weather : WeatherData)
    (recentlyWorn : RecentlyWornItems) (formalityPreference : FormalityLevel)
    (hw : ∀ i ∈ items, i.warmth_rating = 2) (ht : weather.temperature = 30) :
    generateOutfitSuggestionsCore items recentlyWorn weather formalityPreference = [] := by
  unfold generateOutfitSuggestionsCore
  split
  · rfl
  · have hfil : filterItemsByContext items weather formalityPreference = [] := by
      rw [filterItemsByContext, List.filter_eq_nil_iff]
      intro a ha
      have hwa : isWeatherAppropriate a weather = false := by
        unfold isWeatherAppropriate tempRanges
        rw [hw a ha, ht]
        norm_num
      simp [hwa]
    unfold scoredCandidatePool
    rw [hfil]
    rfl

theorem scenarioB_returns_empty_witness :
    generateOutfitSuggestionsCore demoItems emptyWorn clear30 .casual = [] :=
  scenarioB_returns_empty demoItems clear30 emptyWorn .casual (by decide) rfl

def accA : ClothingItem :=
  { id := 4, type := .accessory, color := "navy", warmth_rating := 2,
    formality_level := .casual, tags := [] }

def accB : ClothingItem :=
  { id := 5, type := .accessory, color := "navy", warmth_rating := 2,
    formality_level := .casual, tags := [] }

def accItems : List ClothingItem := demoItems ++ [accA, accB]

/-- **C6 counterexample**: with one top/bottom/shoes and two accessories the
pool holds three candidates with pairwise-distinct full five-slot id tuples,
yet only one suggestion is returned — the two candidates differing from it
only in the accessory slot are skipped by the backfill pass. -/
theorem backfill_skips_despite_distinct_tuples :
    (generateOutfitSuggestionsCore accItems emptyWorn clear68 .casual).length = 1 ∧
    (generateOutfitCandidates (filterItemsByContext accItems clear68 .casual) clear68).length
      = 3 ∧
    ((generateOutfitCandidates (filterItemsByContext accItems clear68 .casual) clear68).map
      (fun c => (c.top.map (·.id), c.bottom.map (·.id), c.shoes.map (·.id),
        c.outerwear.map (·.id), c.accessory.map (·.id)))).Nodup := by
  refine ⟨?_, ?_, ?_⟩
  · have h : (generateOutfitSuggestionsCore accItems emptyWorn clear68 .casual).map
        (fun s => s.outfit.accessory_id) = [none] :=
      of_decide_eq_true (by with_unfolding_all rfl)
    have := congrArg List.length h
    simpa using this
  · exact of_decide_eq_true (by with_unfolding_all rfl)
  · exact of_decide_eq_true (by with_unfolding_all rfl)

lemma jsEqOptNat_eq_some {a : Option ℕ} {x : ℕ} :
    jsEqOptNat a (some x) = true ↔ a = some x := by
  match a with
  | none => simp [jsEqOptNat]
  | some y => simp [jsEqOptNat]

lemma suggestionMatchesCandidate_iff {s : OutfitSuggestion} {c : OutfitCandidate}
    {t b sh : ClothingItem} (ht : c.top = some t) (hb : c.bottom = some b)
    (hs : c.shoes = some sh) :
    suggestionMatchesCandidate s c = true ↔
      (s.outfit.top_id = c.top.map (·.id) ∧ s.outfit.bottom_id = c.bottom.map (·.id) ∧
        s.outfit.shoes_id = c.shoes.map (·.id)) := by
  unfold suggestionMatchesCandidate
  rw [ht, hb, hs]
  simp only [Option.map_some', Bool.and_eq_true, jsEqOptNat_eq_some, and_assoc]

/-- **C6 amended**: at each backfill step (result not yet full), the pool
candidate is skipped — the pass recurses with the result unchanged — exactly
when some result entry already carries the same (top, bottom, shoes) id
triple; otherwise it is appended.  Candidates differing only in outerwear or
accessory are therefore treated as duplicates. -/
theorem backfillPass_step_skip_iff (count : ℕ) (weather : WeatherData)
    (rest : List ScoredOutfit) (so : ScoredOutfit) (acc : List OutfitSuggestion)
    (t b sh : ClothingItem)
    (hlen : acc.length < count) (ht : so.candidate.top = some t)
    (hb : so.candidate.bottom = some b) (hs : so.candidate.shoes = some sh) :
    ((∃ s ∈ acc, s.outfit.top_id = so.candidate.top.map (·.id) ∧
        s.outfit.bottom_id = so.candidate.bottom.map (·.id) ∧
        s.outfit.shoes_id = so.candidate.shoes.map (·.id)) →
      backfillPass count weather (so :: rest) acc = backfillPass count weather rest acc) ∧
    ((¬ ∃ s ∈ acc, s.outfit.top_id = so.candidate.top.map (·.id) ∧
        s.outfit.bottom_id = so.candidate.bottom.map (·.id) ∧
        s.outfit.shoes_id = so.candidate.shoes.map (·.id)) →
      backfillPass count weather (so :: rest) acc =
        backfillPass count weather rest (acc ++ [mkSuggestion so weather])) := by
  constructor
  · intro hex
    have hany : (acc.any fun s => suggestionMatchesCandidate s so.candidate) = true := by
      obtain ⟨s, hsmem, htr⟩ := hex
      exact List.any_eq_true.mpr ⟨s, hsmem,
        (suggestionMatchesCandidate_iff ht hb hs).mpr htr⟩
    have hstep : backfillPass count weather (so :: rest) acc =
        (if count ≤ acc.length then acc
         else if (acc.any fun s => suggestionMatchesCandidate s so.candidate) = true then
           backfillPass count weather rest acc
         else backfillPass count weather rest (acc ++ [mkSuggestion so weather])) := rfl
    rw [hstep, if_neg (not_le.mpr hlen), if_pos hany]
  · intro hnex
    have hany : (acc.any fun s => suggestionMatchesCandidate s so.candidate) = false := by
      rw [Bool.eq_false_iff]
      intro hcon
      obtain ⟨s, hsmem, hmatch⟩ := List.any_eq_true.mp hcon
      exact hnex ⟨s, hsmem, (suggestionMatchesCandidate_iff ht hb hs).mp hmatch⟩
    have hstep : backfillPass count weather (so :: rest) acc =
        (if count ≤ acc.length then acc
         else if (acc.any fun s => suggestionMatchesCandidate s so.candidate) = true then
           backfillPass count weather rest acc
         else backfillPass count weather rest (acc ++ [mkSuggestion so weather])) := rfl
    rw [hstep, if_neg (not_le.mpr hlen), hany]
    simp only [Bool.false_eq_true, if_false]

def candNoAcc : OutfitCandidate :=
  { top := some demoTop, bottom := some demoBottom, shoes := some demoShoes,
    outerwear := none, accessory := none }

def candWithAcc : OutfitCandidate :=
  { top := some demoTop, bottom := some demoBottom, shoes := some demoShoes,
    outerwear := none, accessory := some accA }

def soNoAcc : ScoredOutfit := scoreOutfit candNoAcc clear68 .casual emptyWorn

def soWithAcc : ScoredOutfit := scoreOutfit candWithAcc clear68 .casual emptyWorn

theorem backfillPass_step_skip_witness :
    backfillPass 3 clear68 [soWithAcc] [mkSuggestion soNoAcc clear68] =
      backfillPass 3 clear68 [] [mkSuggestion soNoAcc clear68] :=
  (backfillPass_step_skip_iff 3 clear68 [] soWithAcc [mkSuggestion soNoAcc clear68]
    demoTop demoBottom demoShoes (by decide) rfl rfl rfl).1
    ⟨mkSuggestion soNoAcc clear68, by simp, rfl, rfl, rfl⟩

/-! ### Sorting lemmas -/

lemma insertByKeyDesc_perm {α : Type} (key : α → ℚ) (x : α) (l : List α) :
    (insertByKeyDesc key x l).Perm (x :: l) := by
  induction l with
  | nil => exact List.Perm.refl _
  | cons y ys ih =>
    unfold insertByKeyDesc
    split
    · exact List.Perm.refl _
    · exact (ih.cons y).trans (List.Perm.swap x y ys)

lemma foldl_insertByKeyDesc_perm {α : Type} (key : α → ℚ) (l acc : List α) :
    (l.foldl (fun a x => insertByKeyDesc key x a) acc).Perm (l ++ acc) := by
  induction l generalizing acc with
  | nil => simp
  | cons x xs ih =>
    simp only [List.foldl_cons, List.cons_append]
    refine (ih (insertByKeyDesc key x acc)).trans ?_
    refine (List.Perm.append_left xs (insertByKeyDesc_perm key x acc)).trans ?_
    exact List.perm_middle

lemma sortByKeyDesc_perm {α : Type} (key : α → ℚ) (l : List α) :
    (sortByKeyDesc key l).Perm l := by
  unfold sortByKeyDesc
  simpa using foldl_insertByKeyDesc_perm key l []

lemma insertByKeyDesc_of_not_lt {α : Type} {key : α → ℚ} {x : α} {l : List α}
    (h : ∀ y ∈ l, ¬ key y < key x) : insertByKeyDesc key x l = l ++ [x] := by
  induction l with
  | nil => rfl
  | cons y ys ih =>
    unfold insertByKeyDesc
    rw [if_neg (h y (List.mem_cons_self y ys))]
    simp only [List.cons_append, List.cons.injEq, true_and]
    exact ih fun z hz => h z (List.mem_cons_of_mem y hz)

lemma sortByKeyDesc_of_const {α : Type} {key : α → ℚ} {c : ℚ} {l : List α}
    (h : ∀ x ∈ l, key x = c) : sortByKeyDesc key l = l := by
  unfold sortByKeyDesc
  have main : ∀ (l acc : List α), (∀ x ∈ l, key x = c) → (∀ x ∈ acc, key x = c) →
      l.foldl (fun a x => insertByKeyDesc key x a) acc = acc ++ l := by
    intro l
    induction l with
    | nil => intro acc _ _; simp
    | cons x xs ih =>
      intro acc hl hacc
      simp only [List.foldl_cons]
      have hins : insertByKeyDesc key x acc = acc ++ [x] :=
        insertByKeyDesc_of_not_lt fun y hy => by
          rw [hl x (List.mem_cons_self x xs), hacc y hy]
          exact lt_irrefl c
      rw [hins, ih (acc ++ [x]) (fun z hz => hl z (List.mem_cons_of_mem x hz))
        (fun z hz => by
          rcases List.mem_append.mp hz with hz | hz
          · exact hacc z hz
          · simp only [List.mem_singleton] at hz
            subst hz
            exact hl z (List.mem_cons_self z xs))]
      simp
  simpa using main l [] h (by simp)

/-! ### Selection pass lemmas -/

def soTriple (so : ScoredOutfit) : Option ℕ × Option ℕ × Option ℕ :=
  (so.candidate.top.map (·.id), so.candidate.bottom.map (·.id), so.candidate.shoes.map (·.id))

def suggTriple (s : OutfitSuggestion) : Option ℕ × Option ℕ × Option ℕ :=
  (s.outfit.top_id, s.outfit.bottom_id, s.outfit.shoes_id)

lemma diversityPass_length_le (count : ℕ) (weather : WeatherData)
    (pool : List ScoredOutfit) (acc : List OutfitSuggestion) (used : Finset ℕ)
    (h : acc.length ≤ count) :
    (diversityPass count weather pool acc used).1.length ≤ count := by
  induction pool generalizing acc used with
  | nil => exact h
  | cons so rest ih =>
    unfold diversityPass
    split
    · exact h
    · dsimp only
      split
      · exact ih acc used h
      · refine ih _ _ ?_
        rename_i hfull _
        simp only [List.length_append, List.length_singleton]
        omega

lemma backfillPass_length_le (count : ℕ) (weather : WeatherData)
    (pool : List ScoredOutfit) (acc : List OutfitSuggestion)
    (h : acc.length ≤ count) :
    (backfillPass count weather pool acc).length ≤ count := by
  induction pool generalizing acc with
  | nil => exact h
  | cons so rest ih =>
    unfold backfillPass
    split
    · exact h
    · dsimp only
      split
      · exact ih acc h
      · refine ih _ ?_
        rename_i hfull _
        simp only [List.length_append, List.length_singleton]
        omega

lemma backfillPass_mono (count : ℕ) (weather : WeatherData)
    (pool : List ScoredOutfit) (acc : List OutfitSuggestion) :
    ∀ s ∈ acc, s ∈ backfillPass count weather pool acc := by
  induction pool generalizing acc with
  | nil => intro s hs; exact hs
  | cons so rest ih =>
    intro s hs
    unfold backfillPass
    split
    · exact hs
    · dsimp only
      split
      · exact ih acc s hs
      · exact ih _ s (List.mem_append.mpr (Or.inl hs))

lemma backfillPass_covers (count : ℕ) (weather : WeatherData)
    (pool : List ScoredOutfit) (acc : List OutfitSuggestion)
    (hsome : ∀ so ∈ pool, ∃ t b sh, so.candidate.top = some t ∧
      so.candidate.bottom = some b ∧ so.candidate.shoes = some sh)
    (hshort : (backfillPass count weather pool acc).length < count) :
    ∀ so ∈ pool, ∃ s ∈ backfillPass count weather pool acc,
      suggestionMatchesCandidate s so.candidate = true := by
  induction pool generalizing acc with
  | nil => intro so hso; exact absurd hso (List.not_mem_nil so)
  | cons so0 rest ih =>
    intro so hso
    have hstep : backfillPass count weather (so0 :: rest) acc =
        (if count ≤ acc.length then acc
         else if (acc.any fun s => suggestionMatchesCandidate s so0.candidate) = true then
           backfillPass count weather rest acc
         else backfillPass count weather rest (acc ++ [mkSuggestion so0 weather])) := rfl
    rcases le_or_lt count acc.length with hfull | hnotfull
    · rw [hstep, if_pos hfull] at hshort
      omega
    · rw [hstep, if_neg (not_le.mpr hnotfull)] at hshort ⊢
      cases hadd : (acc.any fun s => suggestionMatchesCandidate s so0.candidate) with
      | true =>
        rw [hadd] at hshort
        simp only [if_pos] at hshort ⊢
        rcases List.mem_cons.mp hso with rfl | hso2
        · obtain ⟨s, hsmem, hsmatch⟩ := List.any_eq_true.mp hadd
          exact ⟨s, backfillPass_mono count weather rest acc s hsmem, hsmatch⟩
        · exact ih acc (fun x hx => hsome x (List.mem_cons_of_mem so0 hx)) hshort so hso2
      | false =>
        rw [hadd] at hshort
        simp only [Bool.false_eq_true, if_false] at hshort ⊢
        rcases List.mem_cons.mp hso with rfl | hso2
        · refine ⟨mkSuggestion so weather, backfillPass_mono count weather rest _ _
            (List.mem_append.mpr (Or.inr (List.mem_singleton_self _))), ?_⟩
          obtain ⟨t, b, sh, ht, hb, hs⟩ := hsome so (List.mem_cons_self so rest)
          rw [suggestionMatchesCandidate_iff ht hb hs]
          exact ⟨rfl, rfl, rfl⟩
        · exact ih _ (fun x hx => hsome x (List.mem_cons_of_mem so0 hx)) hshort so hso2

lemma backfillPass_reaches_count (count : ℕ) (weather : WeatherData)
    (pool : List ScoredOutfit) (acc : List OutfitSuggestion)
    (hacc : acc.length ≤ count)
    (hlen : count ≤ pool.length)
    (hsome : ∀ so ∈ pool, ∃ t b sh, so.candidate.top = some t ∧
      so.candidate.bottom = some b ∧ so.candidate.shoes = some sh)
    (hnodup : (pool.map soTriple).Nodup) :
    (backfillPass count weather pool acc).length = count := by
  refine le_antisymm (backfillPass_length_le _ _ _ _ hacc) ?_
  by_contra hlt
  push_neg at hlt
  have hcov := backfillPass_covers count weather pool acc hsome hlt
  have hsub : (pool.map soTriple) ⊆
      ((backfillPass count weather pool acc).map suggTriple) := by
    intro x hx
    obtain ⟨so, hso, rfl⟩ := List.mem_map.mp hx
    obtain ⟨s, hsmem, hsmatch⟩ := hcov so hso
    obtain ⟨t, b, sh, ht, hb, hsh⟩ := hsome so hso
    have heq := (suggestionMatchesCandidate_iff ht hb hsh).mp hsmatch
    refine List.mem_map.mpr ⟨s, hsmem, ?_⟩
    unfold suggTriple soTriple
    rw [heq.1, heq.2.1, heq.2.2]
  have hle := (hnodup.subperm hsub).length_le
  rw [List.length_map, List.length_map] at hle
  omega

/-- The selector returns exactly `count` suggestions whenever every scored
outfit is positive with non-null core slots, the (top, bottom, shoes)
triples are pairwise distinct, and the pool can accommodate `count`
(`count ≤ 20` and `count` at most the number of scored outfits). -/
lemma selectTopSuggestions_length (scoredOutfits : List ScoredOutfit) (count : ℕ)
    (weather : WeatherData)
    (hpos : ∀ so ∈ scoredOutfits, 0 < so.score)
    (hsome : ∀ so ∈ scoredOutfits, ∃ t b sh, so.candidate.top = some t ∧
      so.candidate.bottom = some b ∧ so.candidate.shoes = some sh)
    (hnodup : (scoredOutfits.map soTriple).Nodup)
    (hc20 : count ≤ 20) (hclen : count ≤ scoredOutfits.length) (hcpos : 0 < count) :
    (selectTopSuggestions scoredOutfits count weather).length = count := by
  unfold selectTopSuggestions
  have hfil : (scoredOutfits.filter fun outfit => decide (0 < outfit.score)) = scoredOutfits :=
    List.filter_eq_self.mpr fun so hso => decide_eq_true (hpos so hso)
  rw [hfil]
  have hne : ¬ scoredOutfits.length = 0 := by omega
  rw [if_neg hne]
  dsimp only
  set sorted := sortByKeyDesc (fun so => so.score) scoredOutfits with hsorted
  have hperm : sorted.Perm scoredOutfits := sortByKeyDesc_perm _ _
  have hslen : sorted.length = scoredOutfits.length := hperm.length_eq
  set pool := sorted.take (min 20 sorted.length) with hpool
  have hpoollen : pool.length = min 20 scoredOutfits.length := by
    rw [hpool, List.length_take, hslen]
    omega
  have hpoolsub : pool.Sublist sorted := List.take_sublist _ _
  have hpoolmem : ∀ so ∈ pool, so ∈ scoredOutfits := fun so hso =>
    hperm.mem_iff.mp (hpoolsub.mem hso)
  have hpoolsome : ∀ so ∈ pool, ∃ t b sh, so.candidate.top = some t ∧
      so.candidate.bottom = some b ∧ so.candidate.shoes = some sh :=
    fun so hso => hsome so (hpoolmem so hso)
  have hpoolnodup : (pool.map soTriple).Nodup := by
    have h1 : (sorted.map soTriple).Nodup :=
      ((hperm.map soTriple).nodup_iff).mpr hnodup
    exact (hpoolsub.map soTriple).nodup h1
  have hcountpool : count ≤ pool.length := by omega
  set d := diversityPass count weather pool [] ∅ with hd
  have hdlen : d.1.length ≤ count :=
    diversityPass_length_le count weather pool [] ∅ (by simp)
  split
  · rename_i hcond
    exact backfillPass_reaches_count count weather pool d.1 (le_of_lt hcond.1)
      hcountpool hpoolsome hpoolnodup
  · rename_i hcond
    rw [not_and_or] at hcond
    rcases hcond with hcond | hcond
    · omega
    · omega

/-! ### Cross-product structure of the warm-weather generator -/

lemma optFallback_of_ne_nil {l : List ClothingItem} (h : l ≠ []) :
    optFallback l = l.map some := by
  unfold optFallback
  rw [if_pos (by simpa using List.length_pos.mpr h)]

lemma candidateCombos_noStock (t b s : ClothingItem) (r : Bool) :
    candidateCombos t b s r [none] [none] =
      [{ top := some t, bottom := some b, shoes := some s,
         outerwear := none, accessory := none }] := by
  unfold candidateCombos
  rw [if_neg (by simp)]
  rfl

lemma flatMap_map_some {α β : Type} (l : List α) (g : Option α → List β) :
    (l.map some).flatMap g = l.flatMap fun x => g (some x) := by
  induction l with
  | nil => rfl
  | cons x xs ih => simp only [List.map_cons, List.flatMap_cons, ih]

lemma flatMap_singleton_eq_map {α β : Type} (l : List α) (f : α → β) :
    (l.flatMap fun x => [f x]) = l.map f := by
  induction l with
  | nil => rfl
  | cons x xs ih => simp only [List.flatMap_cons, List.map_cons, ih, List.singleton_append]

/-- When outerwear and accessory stock is empty after filtering, the
generator is exactly the top × bottom × shoes cross product of bare
candidates (in row-major source order), for any temperature. -/
lemma generateOutfitCandidates_basic (items : List ClothingItem) (weather : WeatherData)
    (T B S : List ClothingItem)
    (htop : (groupItemsByType items).top = T)
    (hbot : (groupItemsByType items).bottom = B)
    (hsho : (groupItemsByType items).shoes = S)
    (hout : (groupItemsByType items).outerwear = [])
    (hacc : (groupItemsByType items).accessory = [])
    (hT : T ≠ []) (hB : B ≠ []) (hS : S ≠ []) :
    generateOutfitCandidates items weather =
      T.flatMap fun t => B.flatMap fun b => S.map fun s =>
        { top := some t, bottom := some b, shoes := some s,
          outerwear := none, accessory := none } := by
  unfold generateOutfitCandidates
  dsimp only
  rw [htop, hbot, hsho, hout, hacc, optFallback_of_ne_nil hT, optFallback_of_ne_nil hB,
    optFallback_of_ne_nil hS]
  have hnil : optFallback [] = [none] := rfl
  rw [hnil]
  simp only [flatMap_map_some]
  simp only [candidateCombos_noStock]
  congr 1
  funext t
  congr 1
  funext b
  exact flatMap_singleton_eq_map S _

lemma length_cross2 {β γ δ : Type} (B : List β) (S : List γ) (g : β → γ → δ) :
    (B.flatMap fun b => S.map fun s => g b s).length = B.length * S.length := by
  induction B with
  | nil => simp
  | cons b bs ih =>
    simp only [List.flatMap_cons, List.length_append, List.length_map, ih,
      List.length_cons]
    ring

lemma length_cross {α β γ δ : Type} (T : List α) (B : List β) (S : List γ)
    (g : α → β → γ → δ) :
    (T.flatMap fun t => B.flatMap fun b => S.map fun s => g t b s).length =
      T.length * B.length * S.length := by
  induction T with
  | nil => simp
  | cons t ts ih =>
    simp only [List.flatMap_cons, List.length_append, ih, List.length_cons,
      length_cross2]
    ring

lemma nodup_cross_triples (T B S : List ClothingItem)
    (hT : (T.map fun i => i.id).Nodup) (hB : (B.map fun i => i.id).Nodup)
    (hS : (S.map fun i => i.id).Nodup) :
    (T.flatMap fun t => B.flatMap fun b => S.map fun s =>
      ((some t.id, some b.id, some s.id) : Option ℕ × Option ℕ × Option ℕ)).Nodup := by
  rw [List.nodup_flatMap]
  constructor
  · intro t _
    rw [List.nodup_flatMap]
    constructor
    · intro b _
      refine List.Nodup.map_on ?_ (List.Nodup.of_map _ hS)
      intro s1 hs1 s2 hs2 he
      have hid : s1.id = s2.id := by
        have := congrArg (fun p => p.2.2) he
        simpa using this
      exact List.inj_on_of_nodup_map hS hs1 hs2 hid
    · have hB' : B.Pairwise fun b1 b2 => b1.id ≠ b2.id := List.pairwise_map.mp hB
      refine hB'.imp ?_
      intro b1 b2 hne x hx1 hx2
      obtain ⟨s1, _, rfl⟩ := List.mem_map.mp hx1
      obtain ⟨s2, _, heq⟩ := List.mem_map.mp hx2
      have : b2.id = b1.id := by
        have := congrArg (fun p => p.2.1) heq
        simpa using this
      exact hne this.symm
  · have hT' : T.Pairwise fun t1 t2 => t1.id ≠ t2.id := List.pairwise_map.mp hT
    refine hT'.imp ?_
    intro t1 t2 hne x hx1 hx2
    simp only [List.mem_flatMap, List.mem_map] at hx1 hx2
    obtain ⟨b1, _, s1, _, rfl⟩ := hx1
    obtain ⟨b2, _, s2, heq⟩ := hx2
    have : t2.id = t1.id := by
      have := congrArg (fun p => p.1) heq.2
      simpa using this
    exact hne this.symm

lemma scoreFreshness_emptyWorn (candidate : OutfitCandidate) :
    scoreFreshness candidate { lastTwoDays := ∅, lastSevenDays := ∅ } = 25 := by
  unfold scoreFreshness
  simp

lemma scoreOutfit_score_eq (candidate : OutfitCandidate) (weather : WeatherData)
    (pref : FormalityLevel) (worn : RecentlyWornItems) :
    (scoreOutfit candidate weather pref worn).score =
      scoreWeatherMatch candidate weather + scoreFormalityMatch candidate pref +
      scoreColorCoordination candidate + scoreFreshness candidate worn := rfl

/-- **C3 amended**: for ten tops, ten bottoms and ten shoes with
pairwise-distinct ids, all passing the context filter, with empty wear
history and requested count 3, the pipeline returns exactly 3 suggestions —
but their item-id sets need not be pairwise disjoint (see the
counterexample). -/
theorem scenarioD_exactly_three (T B S : List ClothingItem) (weather : WeatherData)
    (pref : FormalityLevel)
    (hTlen : T.length = 10) (hBlen : B.length = 10) (hSlen : S.length = 10)
    (hTt : ∀ i ∈ T, i.type = ClothingType.top)
    (hBt : ∀ i ∈ B, i.type = ClothingType.bottom)
    (hSt : ∀ i ∈ S, i.type = ClothingType.shoes)
    (hids : ((T ++ B ++ S).map fun i => i.id).Nodup)
    (hfil : filterItemsByContext (T ++ B ++ S) weather pref = T ++ B ++ S) :
    (generateOutfitSuggestionsCore (T ++ B ++ S)
      { lastTwoDays := ∅, lastSevenDays := ∅ } weather pref).length = 3 := by
  have hTne : T ≠ [] := by intro h; rw [h] at hTlen; simp at hTlen
  have hBne : B ≠ [] := by intro h; rw [h] at hBlen; simp at hBlen
  have hSne : S ≠ [] := by intro h; rw [h] at hSlen; simp at hSlen
  have hgtop : (groupItemsByType (T ++ B ++ S)).top = T := by
    unfold groupItemsByType
    dsimp only
    rw [List.filter_append, List.filter_append,
      List.filter_eq_self.mpr (fun i hi => by simp [hTt i hi]),
      List.filter_eq_nil_iff.mpr (fun i hi => by simp [hBt i hi]),
      List.filter_eq_nil_iff.mpr (fun i hi => by simp [hSt i hi])]
    simp
  have hgbot : (groupItemsByType (T ++ B ++ S)).bottom = B := by
    unfold groupItemsByType
    dsimp only
    rw [List.filter_append, List.filter_append,
      List.filter_eq_nil_iff.mpr (fun i hi => by simp [hTt i hi]),
      List.filter_eq_self.mpr (fun i hi => by simp [hBt i hi]),
      List.filter_eq_nil_iff.mpr (fun i hi => by simp [hSt i hi])]
    simp
  have hgsho : (groupItemsByType (T ++ B ++ S)).shoes = S := by
    unfold groupItemsByType
    dsimp only
    rw [List.filter_append, List.filter_append,
      List.filter_eq_nil_iff.mpr (fun i hi => by simp [hTt i hi]),
      List.filter_eq_nil_iff.mpr (fun i hi => by simp [hBt i hi]),
      List.filter_eq_self.mpr (fun i hi => by simp [hSt i hi])]
    simp
  have hgout : (groupItemsByType (T ++ B ++ S)).outerwear = [] := by
    unfold groupItemsByType
    dsimp only
    rw [List.filter_append, List.filter_append,
      List.filter_eq_nil_iff.mpr (fun i hi => by simp [hTt i hi]),
      List.filter_eq_nil_iff.mpr (fun i hi => by simp [hBt i hi]),
      List.filter_eq_nil_iff.mpr (fun i hi => by simp [hSt i hi])]
    simp
  have hgacc : (groupItemsByType (T ++ B ++ S)).accessory = [] := by
    unfold groupItemsByType
    dsimp only
    rw [List.filter_append, List.filter_append,
      List.filter_eq_nil_iff.mpr (fun i hi => by simp [hTt i hi]),
      List.filter_eq_nil_iff.mpr (fun i hi => by simp [hBt i hi]),
      List.filter_eq_nil_iff.mpr (fun i hi => by simp [hSt i hi])]
    simp
  have hgen := generateOutfitCandidates_basic (T ++ B ++ S) weather T B S
    hgtop hgbot hgsho hgout hgacc hTne hBne hSne
  have hTid : (T.map fun i => i.id).Nodup := by
    rw [List.map_append, List.map_append] at hids
    exact (hids.of_append_left).of_append_left
  have hBid : (B.map fun i => i.id).Nodup := by
    rw [List.map_append, List.map_append] at hids
    exact (hids.of_append_left).of_append_right
  have hSid : (S.map fun i => i.id).Nodup := by
    rw [List.map_append, List.map_append] at hids
    exact hids.of_append_right
  unfold generateOutfitSuggestionsCore
  rw [if_neg (by simp [hTlen])]
  unfold scoredCandidatePool
  dsimp only
  rw [hfil, hgen]
  set scorefn := fun candidate =>
    scoreOutfit candidate weather pref { lastTwoDays := ∅, lastSevenDays := ∅ } with hscorefn
  refine selectTopSuggestions_length _ 3 weather ?_ ?_ ?_ (by omega) ?_ (by omega)
  · intro so hso
    obtain ⟨c, _, rfl⟩ := List.mem_map.mp hso
    rw [hscorefn]
    rw [scoreOutfit_score_eq, scoreFreshness_emptyWorn]
    have h1 := (scoreWeatherMatch_bounds c weather).1
    have h2 := (scoreFormalityMatch_bounds c pref).1
    have h3 := (scoreColorCoordination_bounds c).1
    linarith
  · intro so hso
    obtain ⟨c, hc, rfl⟩ := List.mem_map.mp hso
    simp only [List.mem_flatMap, List.mem_map] at hc
    obtain ⟨t, _, b, _, s, _, rfl⟩ := hc
    exact ⟨t, b, s, rfl, rfl, rfl⟩
  · rw [List.map_map]
    have hcomp : (soTriple ∘ scorefn) = fun c : OutfitCandidate =>
        (c.top.map (·.id), c.bottom.map (·.id), c.shoes.map (·.id)) := rfl
    rw [hcomp]
    have hpush : ((T.flatMap fun t => B.flatMap fun b => S.map fun s =>
        ({ top := some t, bottom := some b, shoes := some s, outerwear := none,
           accessory := none } : OutfitCandidate)).map fun c : OutfitCandidate =>
        (c.top.map (·.id), c.bottom.map (·.id), c.shoes.map (·.id))) =
        T.flatMap fun t => B.flatMap fun b => S.map fun s =>
          ((some t.id, some b.id, some s.id) : Option ℕ × Option ℕ × Option ℕ) := by
      simp only [List.map_flatMap, List.map_map]
      rfl
    rw [hpush]
    exact nodup_cross_triples T B S hTid hBid hSid
  · rw [List.length_map, length_cross, hTlen, hBlen, hSlen]
    omega

def navyItem (i : ℕ) (t : ClothingType) : ClothingItem :=
  { id := i, type := t, color := "navy", warmth_rating := 2,
    formality_level := .casual, tags := [] }

def bareNavy (i j k : ℕ) (t1 t2 t3 : ClothingType) : OutfitCandidate :=
  { top := some (navyItem i t1), bottom := some (navyItem j t2),
    shoes := some (navyItem k t3), outerwear := none, accessory := none }

lemma candidateItems_bare (i j k : ℕ) (t1 t2 t3 : ClothingType) :
    candidateItems (bareNavy i j k t1 t2 t3) =
      [navyItem i t1, navyItem j t2, navyItem k t3] := rfl

lemma sw27 (i j k : ℕ) (t1 t2 t3 : ClothingType) :
    scoreWeatherMatch (bareNavy i j k t1 t2 t3) clear68 = 27 := by
  unfold scoreWeatherMatch
  rw [candidateItems_bare]
  norm_num [navyItem, clear68, min_def, max_def, abs_of_neg]

lemma sf25 (i j k : ℕ) (t1 t2 t3 : ClothingType) :
    scoreFormalityMatch (bareNavy i j k t1 t2 t3) .casual = 25 := by
  unfold scoreFormalityMatch
  rw [candidateItems_bare]
  norm_num [navyItem, formalityLevels, listMaxZ, listMinZ, min_def, max_def]

lemma sc18 (i j k : ℕ) (t1 t2 t3 : ClothingType) :
    scoreColorCoordination (bareNavy i j k t1 t2 t3) = 18 := by
  with_unfolding_all rfl

lemma sfr25 (i j k : ℕ) (t1 t2 t3 : ClothingType) :
    scoreFreshness (bareNavy i j k t1 t2 t3) emptyWorn = 25 := by
  with_unfolding_all rfl

lemma score95 (i j k : ℕ) (t1 t2 t3 : ClothingType) :
    (scoreOutfit (bareNavy i j k t1 t2 t3) clear68 .casual emptyWorn).score = 95 := by
  rw [scoreOutfit_score_eq, sw27, sf25, sc18, sfr25]
  norm_num

/-- When every scored outfit carries the same positive score, the filter
keeps everything and the stable sort is the identity, so the selector is
just the take-20 pool fed through the two passes. -/
lemma selectTopSuggestions_of_const (scoredOutfits : List ScoredOutfit) (count : ℕ)
    (weather : WeatherData) (c : ℚ) (hc : 0 < c)
    (hall : ∀ so ∈ scoredOutfits, so.score = c) (hne : scoredOutfits ≠ []) :
    selectTopSuggestions scoredOutfits count weather =
      (if (diversityPass count weather
            (scoredOutfits.take (min 20 scoredOutfits.length)) [] ∅).1.length < count ∧
          (diversityPass count weather
            (scoredOutfits.take (min 20 scoredOutfits.length)) [] ∅).1.length <
            (scoredOutfits.take (min 20 scoredOutfits.length)).length then
        backfillPass count weather (scoredOutfits.take (min 20 scoredOutfits.length))
          (diversityPass count weather
            (scoredOutfits.take (min 20 scoredOutfits.length)) [] ∅).1
      else (diversityPass count weather
        (scoredOutfits.take (min 20 scoredOutfits.length)) [] ∅).1) := by
  unfold selectTopSuggestions
  rw [List.filter_eq_self.mpr fun so hso => decide_eq_true (by rw [hall so hso]; exact hc)]
  rw [if_neg (by simpa using hne)]
  rw [sortByKeyDesc_of_const hall]

def tops10 : List ClothingItem := (List.range 10).map fun n => navyItem (n + 1) .top

def bottoms10 : List ClothingItem := (List.range 10).map fun n => navyItem (n + 11) .bottom

def shoes10 : List ClothingItem := (List.range 10).map fun n => navyItem (n + 21) .shoes

def items30 : List ClothingItem := tops10 ++ bottoms10 ++ shoes10

def cand30 : List OutfitCandidate :=
  tops10.flatMap fun t => bottoms10.flatMap fun b => shoes10.map fun s =>
    { top := some t, bottom := some b, shoes := some s,
      outerwear := none, accessory := none }

def pool30 : List ScoredOutfit :=
  cand30.map fun candidate => scoreOutfit candidate clear68 .casual emptyWorn

lemma pool30_scores : ∀ so ∈ pool30, so.score = 95 := by
  intro so hso
  obtain ⟨c, hc, rfl⟩ := List.mem_map.mp hso
  simp only [cand30, tops10, bottoms10, shoes10, List.mem_flatMap, List.mem_map,
    List.mem_range] at hc
  obtain ⟨t, ⟨n1, _, rfl⟩, b, ⟨n2, _, rfl⟩, s, ⟨n3, _, rfl⟩, rfl⟩ := hc
  exact score95 (n1 + 1) (n2 + 11) (n3 + 21) .top .bottom .shoes

set_option maxRecDepth 40000 in
lemma pool30_length : pool30.length = 1000 := of_decide_eq_true (by with_unfolding_all rfl)

lemma core30_eq : generateOutfitSuggestionsCore items30 emptyWorn clear68 .casual =
    selectTopSuggestions pool30 3 clear68 := by
  unfold generateOutfitSuggestionsCore
  rw [if_neg (by decide)]
  unfold scoredCandidatePool
  dsimp only
  have hfil30 : filterItemsByContext items30 clear68 .casual = items30 :=
    of_decide_eq_true (by with_unfolding_all rfl)
  have hgen30 : generateOutfitCandidates items30 clear68 = cand30 :=
    generateOutfitCandidates_basic items30 clear68 tops10 bottoms10 shoes10
      rfl rfl rfl rfl rfl (by decide) (by decide) (by decide)
  rw [hfil30, hgen30]
  rfl

/-- The non-null item ids of a returned suggestion, in slot order. -/
def suggestionItemIds (s : OutfitSuggestion) : List ℕ :=
  [s.outfit.top_id, s.outfit.bottom_id, s.outfit.shoes_id,
   s.outfit.outerwear_id, s.outfit.accessory_id].filterMap id

lemma pool30_ne_nil : pool30 ≠ [] := by
  intro h
  have := congrArg List.length h
  rw [pool30_length] at this
  simp at this

set_option maxRecDepth 40000 in
lemma map30_ids : (selectTopSuggestions pool30 3 clear68).map
    (fun s => (s.outfit.top_id, s.outfit.bottom_id, s.outfit.shoes_id,
      s.outfit.outerwear_id, s.outfit.accessory_id)) =
    [(some 1, some 11, some 21, none, none),
     (some 1, some 11, some 22, none, none),
     (some 1, some 11, some 23, none, none)] := by
  rw [selectTopSuggestions_of_const pool30 3 clear68 95 (by norm_num) pool30_scores
    pool30_ne_nil]
  exact of_decide_eq_true (by with_unfolding_all rfl)

/-- **C3 counterexample**: thirty warmth-2 navy casual items (ten per core
category, distinct ids), 68°F clear, casual preference, empty history: the
pipeline returns exactly 3 suggestions, but they all share top id 1 (and the
first two also share bottom id 11), so the item-id sets are not pairwise
disjoint. -/
theorem scenarioD_not_pairwise_disjoint :
    (generateOutfitSuggestionsCore items30 emptyWorn clear68 .casual).length = 3 ∧
    ¬ ((generateOutfitSuggestionsCore items30 emptyWorn clear68 .casual).Pairwise
        fun s1 s2 => ∀ i ∈ suggestionItemIds s1, i ∉ suggestionItemIds s2) := by
  have hmap := map30_ids
  rw [← core30_eq] at hmap
  have hlen : (generateOutfitSuggestionsCore items30 emptyWorn clear68 .casual).length = 3 := by
    have := congrArg List.length hmap
    simpa using this
  refine ⟨hlen, ?_⟩
  intro hp
  obtain ⟨a, b, c, habc⟩ := List.length_eq_three.mp hlen
  rw [habc] at hmap hp
  simp only [List.map_cons, List.map_nil, List.cons.injEq, and_true, Prod.mk.injEq] at hmap
  obtain ⟨⟨ha1, ha2, ha3, ha4, ha5⟩, ⟨hb1, hb2, hb3, hb4, hb5⟩, _⟩ := hmap
  have hidsa : suggestionItemIds a = [1, 11, 21] := by
    unfold suggestionItemIds
    rw [ha1, ha2, ha3, ha4, ha5]
    rfl
  have hidsb : suggestionItemIds b = [1, 11, 22] := by
    unfold suggestionItemIds
    rw [hb1, hb2, hb3, hb4, hb5]
    rfl
  have hpa := (List.pairwise_cons.mp hp).1 b (by simp)
  have h1a : 1 ∈ suggestionItemIds a := by rw [hidsa]; simp
  have h1b : 1 ∈ suggestionItemIds b := by rw [hidsb]; simp
  exact hpa 1 h1a h1b

set_option maxRecDepth 4000 in
theorem scenarioD_exactly_three_witness :
    (generateOutfitSuggestionsCore items30 emptyWorn clear68 .casual).length = 3 :=
  scenarioD_exactly_three tops10 bottoms10 shoes10 clear68 .casual
    (by decide) (by decide) (by decide) (by decide) (by decide) (by decide)
    (by decide) (of_decide_eq_true (by with_unfolding_all rfl))
